import Mathlib

/-!
Verification of the GPA_Tracker repository's core logic: a shallow
embedding of the database schema and row-level-security policies
(supabase migration), the stored procedures `calculate_gpa`,
`get_leaderboard`, and the front-end operations
`GradingCriteriaSetup.saveCriteria`, `AddSemesterDialog.handleSubmit`
and `Leaderboard.loadLeaderboard`, together with theorems about the
GPA aggregation, its invariants and the authorization model.

Numeric convention: SQL `DECIMAL(3,2)` grade-point values are embedded
as integers counting hundredths (cents), so `4.00` is `400` and the
procedure's `ROUND(x, 2)` becomes rounding the exact rational `100 * x`
half-away-from-zero to an integer.
-/

namespace GPATracker

abbrev UserId := Nat
abbrev SemesterId := Nat

/-- The `attempt_type` enum from the migration:
`('first_attempt', 'repeat', 'dropped')`. -/
inductive AttemptType
  | first_attempt
  | repeat_attempt
  | dropped
deriving DecidableEq, Repr

/-- The `module_type` enum from the migration:
`('compulsory', 'elective', 'optional')`. -/
inductive ModuleType
  | compulsory
  | elective
  | optional
deriving DecidableEq, Repr

/-- A row of `public.profiles`. -/
structure Profile where
  id : Nat
  user_id : UserId
  full_name : String
  university_name : String
  course_name : String
  registration_number : String
deriving DecidableEq, Repr

/-- A row of `public.grading_criteria`; `gpa_value` is the
`DECIMAL(3,2)` grade-point value in hundredths. -/
structure GradingCriterion where
  user_id : UserId
  grade_name : String
  gpa_value : Int
deriving DecidableEq, Repr

/-- A row of `public.semesters`. -/
structure Semester where
  id : SemesterId
  user_id : UserId
  semester_name : String
  academic_year : String
  is_current : Bool
deriving DecidableEq, Repr

/-- A row of `public.modules`. -/
structure Module where
  semester_id : SemesterId
  user_id : UserId
  module_code : String
  module_name : String
  credit_hours : Nat
  grade : String
  module_type : ModuleType
  attempt_type : AttemptType
deriving DecidableEq, Repr

/-- The database state: the four tables of the migration. -/
structure DB where
  profiles : List Profile
  grading_criteria : List GradingCriterion
  semesters : List Semester
  modules : List Module
deriving DecidableEq, Repr

/-- Rounding of SQL `ROUND(x, 2)` on `NUMERIC`, expressed in hundredths:
round the exact quotient `num / den` (already scaled by 100) to the
nearest integer, half away from zero.  For `0 ≤ num` and `0 < den`,
`(2 * num + den) / (2 * den)` with floor division is
`⌊num / den + 1 / 2⌋`; negative numerators are mirrored. -/
def roundHalfAwayFromZero (num : Int) (den : Nat) : Int :=
  if 0 ≤ num then (2 * num + den) / (2 * den)
  else -((2 * (-num) + den) / (2 * den))

/-- The cursor query of `calculate_gpa`:
`SELECT m.credit_hours, m.grade, m.attempt_type FROM modules m
JOIN semesters s ON m.semester_id = s.id
WHERE m.user_id = p_user_id
AND (p_semester_id IS NULL OR m.semester_id = p_semester_id)
AND m.attempt_type != 'dropped'`. -/
def eligibleModules (db : DB) (p_user_id : UserId)
    (p_semester_id : Option SemesterId) : List Module :=
  db.modules.filter (fun m =>
    db.semesters.any (fun s => s.id == m.semester_id) &&
    m.user_id == p_user_id &&
    (match p_semester_id with
     | none => true
     | some sid => m.semester_id == sid) &&
    !(m.attempt_type == AttemptType.dropped))

/-- The per-module lookup inside the loop:
`SELECT gc.gpa_value INTO gpa_value FROM grading_criteria gc
WHERE gc.user_id = p_user_id AND gc.grade_name = module_record.grade
LIMIT 1` — with the PL/pgSQL semantics that a no-row `SELECT INTO`
leaves the variable NULL (here `none`). -/
def lookupGpaValue (gcs : List GradingCriterion) (p_user_id : UserId)
    (grade : String) : Option Int :=
  (gcs.find? (fun gc =>
    gc.user_id == p_user_id && gc.grade_name == grade)).map
    (fun gc => gc.gpa_value)

/-- One iteration of the `calculate_gpa` loop body: a module whose grade
resolves in the user's grading criteria adds `gpa_value * credit_hours`
to `total_grade_points` and `credit_hours` to `total_credit_hours`;
an unresolved grade (`gpa_value IS NULL`) adds nothing. -/
def gpaStep (gcs : List GradingCriterion) (p_user_id : UserId)
    (acc : Int × Nat) (m : Module) : Int × Nat :=
  match lookupGpaValue gcs p_user_id m.grade with
  | some v => (acc.1 + v * (m.credit_hours : Int), acc.2 + m.credit_hours)
  | none => acc

/-- The accumulation loop of `calculate_gpa`, starting from
`total_grade_points := 0` and `total_credit_hours := 0`. -/
def gpaLoop (gcs : List GradingCriterion) (p_user_id : UserId)
    (ms : List Module) : Int × Nat :=
  ms.foldl (gpaStep gcs p_user_id) (0, 0)

/-- The procedure `public.calculate_gpa(p_user_id, p_semester_id DEFAULT NULL)`:
loop over the eligible modules, then return `0.00` when
`total_credit_hours = 0` and otherwise
`ROUND(total_grade_points / total_credit_hours, 2)`.
The result is in hundredths of a grade point. -/
def calculate_gpa (db : DB) (p_user_id : UserId)
    (p_semester_id : Option SemesterId) : Int :=
  let totals := gpaLoop db.grading_criteria p_user_id
    (eligibleModules db p_user_id p_semester_id)
  if totals.2 = 0 then 0
  else roundHalfAwayFromZero totals.1 totals.2

/-- Reference definition following the specification, §4.1: over the
user's modules (restricted to the given semester when one is supplied)
whose attempt type is not `dropped` and whose grade label resolves in the
user's grading scale, accumulate `grade_point * credit_hours` and
`credit_hours`; return `0.00` when the credit total is zero, and
otherwise the rounded quotient.  Stated directly as sums, to be compared
with the loop-based `calculate_gpa`. -/
def spec_gpa (gcs : List GradingCriterion) (mods : List Module)
    (u : UserId) (sem : Option SemesterId) : Int :=
  let eligible := mods.filter (fun m =>
    m.user_id == u &&
    (match sem with
     | none => true
     | some sid => m.semester_id == sid) &&
    !(m.attempt_type == AttemptType.dropped))
  let contributions := eligible.filterMap (fun m =>
    (lookupGpaValue gcs u m.grade).map
      (fun v => (v * (m.credit_hours : Int), m.credit_hours)))
  let total_grade_points := (contributions.map Prod.fst).sum
  let total_credit_hours := (contributions.map Prod.snd).sum
  if total_credit_hours = 0 then 0
  else roundHalfAwayFromZero total_grade_points total_credit_hours

/-- The largest `gpa_value` among the user's grading-scale entries
(`0` when the user has none). -/
def maxGpaValue (gcs : List GradingCriterion) (u : UserId) : Int :=
  ((gcs.filter (fun gc => gc.user_id == u)).map
    (fun gc => gc.gpa_value)).foldl max 0

/-- The contribution of each module in the loop, as a `filterMap`. -/
def gpaContributions (gcs : List GradingCriterion) (u : UserId)
    (ms : List Module) : List (Int × Nat) :=
  ms.filterMap (fun m =>
    (lookupGpaValue gcs u m.grade).map
      (fun v => (v * (m.credit_hours : Int), m.credit_hours)))

/-! ### `AddSemesterDialog.handleSubmit` (src/components/AddModuleDialog.tsx) -/

/-- Outcome of one supabase-js call: the client resolves with a result
object carrying either data or an `error` field — a failed query does
not throw. -/
inductive StoreResult
  | ok
  | storeError
deriving DecidableEq, Repr

/-- The form state of `AddSemesterDialog`. -/
structure SemesterForm where
  semester_name : String
  academic_year : String
  is_current : Bool
deriving DecidableEq, Repr

/-- The step-(a) update of `handleSubmit`:
`supabase.from("semesters").update({ is_current: false }).eq("user_id", userId)` —
sets `is_current := false` on every semester row of the user. -/
def clearCurrentFlags (sems : List Semester) (userId : UserId) :
    List Semester :=
  sems.map (fun s =>
    if s.user_id == userId then { s with is_current := false } else s)

/-- The handler `AddSemesterDialog.handleSubmit`: when the form's `is_current` is
set, first issue the clearing update — whose returned result is not
inspected by the code — and then insert the new semester row
unconditionally.  `clearResult` is the outcome of the step-(a) call:
on `storeError` the update has no effect on the rows and the returned
error object is discarded. -/
def addSemesterSubmit (db : DB) (userId : UserId) (form : SemesterForm)
    (newId : SemesterId) (clearResult : StoreResult) : DB :=
  let db1 :=
    if form.is_current then
      match clearResult with
      | StoreResult.ok => { db with semesters := clearCurrentFlags db.semesters userId }
      | StoreResult.storeError => db
    else db
  { db1 with semesters := db1.semesters ++
      [{ id := newId, user_id := userId,
         semester_name := form.semester_name,
         academic_year := form.academic_year,
         is_current := form.is_current }] }

/-- Number of semesters of the user flagged `is_current`. -/
def currentSemesterCount (db : DB) (userId : UserId) : Nat :=
  (db.semesters.filter (fun s => s.user_id == userId && s.is_current)).length

/-! ### `Leaderboard.loadLeaderboard` (src/unnamed/part_003) -/

/-- One displayed leaderboard row: the fetched profile together with the
GPA attached to it (in hundredths). -/
structure LBEntry where
  profile : Profile
  gpa : Int
deriving DecidableEq, Repr

/-- The page size `itemsPerPage = 10` of the Leaderboard component. -/
def itemsPerPage : Nat := 10

/-- The expression `gpaData !== null ? parseFloat(gpaData.toString()) : 0`: a null RPC
result is replaced by `0`. -/
def rpcGpaOrZero (gpaData : Option Int) : Int :=
  match gpaData with
  | some g => g
  | none => 0

/-- Descending-GPA comparison used by
`leaderboardWithGPA.sort((a, b) => b.gpa - a.gpa)`. -/
def gpaDescOrder (a b : LBEntry) : Prop :=
  b.gpa ≤ a.gpa

instance : DecidableRel gpaDescOrder :=
  fun a b => inferInstanceAs (Decidable (b.gpa ≤ a.gpa))

/-- The sort step of `loadLeaderboard`. -/
def sortDescByGpa (l : List LBEntry) : List LBEntry :=
  l.insertionSort gpaDescOrder

/-- The profiles query of `loadLeaderboard`: filter by the viewer's
university and course, then apply
`.range((page - 1) * itemsPerPage, page * itemsPerPage - 1)`. -/
def leaderboardPageProfiles (db : DB) (viewer : Profile) (page : Nat) :
    List Profile :=
  let filtered := db.profiles.filter (fun p =>
    p.university_name == viewer.university_name &&
    p.course_name == viewer.course_name)
  (filtered.drop ((page - 1) * itemsPerPage)).take itemsPerPage

/-- The loader `Leaderboard.loadLeaderboard`: fetch the page window of profiles
sharing the viewer's university and course, attach each profile's GPA
from the `calculate_gpa` RPC (no semester scope; a failed call yields a
null result, replaced by `0`), and sort the page descending by GPA.
`rpcFails` records which per-profile RPC calls fail. -/
def loadLeaderboard (db : DB) (viewer : Profile) (page : Nat)
    (rpcFails : UserId → Bool) : List LBEntry :=
  let entries := (leaderboardPageProfiles db viewer page).map (fun p =>
    { profile := p,
      gpa := rpcGpaOrZero
        (if rpcFails p.user_id then none
         else some (calculate_gpa db p.user_id none)) })
  sortDescByGpa entries

/-- The display order claimed by the specification, §4.2: sort the whole
filtered profile set descending by cumulative GPA, and only then take
the page window.  Stated to be compared with `loadLeaderboard`. -/
def spec_leaderboardDisplay (db : DB) (viewer : Profile) (page : Nat)
    (rpcFails : UserId → Bool) : List LBEntry :=
  let filtered := db.profiles.filter (fun p =>
    p.university_name == viewer.university_name &&
    p.course_name == viewer.course_name)
  let entries := filtered.map (fun p =>
    { profile := p,
      gpa := rpcGpaOrZero
        (if rpcFails p.user_id then none
         else some (calculate_gpa db p.user_id none)) })
  ((sortDescByGpa entries).drop ((page - 1) * itemsPerPage)).take itemsPerPage

/-! ### `GradingCriteriaSetup.saveCriteria` (src/unnamed/part_000) -/

/-- JavaScript `String.prototype.trim`: strip whitespace from both
ends. -/
def jsTrim (s : String) : String :=
  String.mk
    (((s.data.dropWhile Char.isWhitespace).reverse.dropWhile
      Char.isWhitespace).reverse)

/-- One row of the grading-criteria setup form.  `gpa_value` is the
result of `parseFloat` on the text field, in hundredths; `none` models a
blank or non-numeric field (`isNaN(parseFloat(...))`). -/
structure CriteriaFormRow where
  grade_name : String
  gpa_value : Option Int
deriving DecidableEq, Repr

/-- The validation filter of `saveCriteria`: keep rows with a nonblank
trimmed grade name and a parsable GPA value, producing the
`(grade_name.trim(), gpa_value)` pairs that get inserted. -/
def validCriteria (rows : List CriteriaFormRow) : List (String × Int) :=
  rows.filterMap (fun c =>
    if jsTrim c.grade_name = "" then none
    else c.gpa_value.map (fun v => (jsTrim c.grade_name, v)))

/-- The handler `GradingCriteriaSetup.saveCriteria`: validate, reject an all-invalid
form, and otherwise insert every valid row for the user — with no
duplicate-label check on the form, and no uniqueness constraint on
`(user_id, grade_name)` in the `grading_criteria` table. -/
def saveCriteria (db : DB) (userId : UserId)
    (rows : List CriteriaFormRow) : Except String DB :=
  let valid := validCriteria rows
  if valid.isEmpty then
    Except.error "Please add at least one valid grading criteria"
  else
    Except.ok { db with grading_criteria :=
      db.grading_criteria ++ valid.map (fun c =>
        { user_id := userId, grade_name := c.1, gpa_value := c.2 }) }

/-- The per-user label-uniqueness invariant asserted by the
specification: for every user, the grade names of that user's
grading-scale entries are pairwise distinct. -/
def uniqueLabelsPerUser (db : DB) : Prop :=
  ∀ u : UserId,
    ((db.grading_criteria.filter (fun gc => gc.user_id == u)).map
      (fun gc => gc.grade_name)).Nodup

/-! ### Row-level-security policies and RPC surface (migration) -/

/-- Policy `Users can view their own grading criteria` (and the identical
insert/update/delete policies): `auth.uid() = user_id`. -/
def gradingCriteriaPolicy (uid : UserId) (row : GradingCriterion) : Bool :=
  row.user_id == uid

/-- Policy `Users can view their own semesters` (and the identical
insert/update/delete policies): `auth.uid() = user_id`. -/
def semestersPolicy (uid : UserId) (row : Semester) : Bool :=
  row.user_id == uid

/-- Policy `Users can view their own modules` (and the identical
insert/update/delete policies): `auth.uid() = user_id`. -/
def modulesPolicy (uid : UserId) (row : Module) : Bool :=
  row.user_id == uid

/-- The two permissive SELECT policies on `profiles` combined (Postgres
ORs permissive policies): `auth.uid() = user_id`, or a profile of the
requester exists with the same `university_name` and `course_name`
(the leaderboard policy's `EXISTS` subquery). -/
def profilesSelectPolicy (db : DB) (uid : UserId) (row : Profile) : Bool :=
  row.user_id == uid ||
  db.profiles.any (fun p =>
    p.user_id == uid &&
    p.university_name == row.university_name &&
    p.course_name == row.course_name)

/-- Rows of `grading_criteria` a SELECT by `uid` can return. -/
def visibleGradingCriteria (db : DB) (uid : UserId) :
    List GradingCriterion :=
  db.grading_criteria.filter (gradingCriteriaPolicy uid)

/-- Rows of `semesters` a SELECT by `uid` can return. -/
def visibleSemesters (db : DB) (uid : UserId) : List Semester :=
  db.semesters.filter (semestersPolicy uid)

/-- Rows of `modules` a SELECT by `uid` can return. -/
def visibleModules (db : DB) (uid : UserId) : List Module :=
  db.modules.filter (modulesPolicy uid)

/-- Rows of `profiles` a SELECT by `uid` can return. -/
def visibleProfiles (db : DB) (uid : UserId) : List Profile :=
  db.profiles.filter (profilesSelectPolicy db uid)

/-- The peer relation of the leaderboard exception: some profile of the
requester shares `university_name` and `course_name` with the row. -/
def isPeerOf (db : DB) (uid : UserId) (row : Profile) : Prop :=
  ∃ p ∈ db.profiles, p.user_id = uid ∧
    p.university_name = row.university_name ∧
    p.course_name = row.course_name

/-- The procedure `calculate_gpa` as exposed over RPC: the function is
`SECURITY DEFINER`, so it runs with the definer's privileges (row-level
security of the querying user does not apply) and performs no check
relating the caller to `p_user_id` — the caller is ignored. -/
def rpc_calculate_gpa (_caller : UserId) (db : DB) (p_user_id : UserId)
    (p_semester_id : Option SemesterId) : Int :=
  calculate_gpa db p_user_id p_semester_id

/-! ### Concrete instances used as witnesses and counterexamples -/

/-- The weighted-average example of the specification, §8: credits 3 at
4.00 ("A") and credits 4 at 3.00 ("B"). -/
def dbWeighted : DB :=
  { profiles := [],
    grading_criteria := [⟨1, "A", 400⟩, ⟨1, "B", 300⟩],
    semesters := [⟨10, 1, "S1", "2024", true⟩],
    modules :=
      [⟨10, 1, "CS101", "m1", 3, "A", .compulsory, .first_attempt⟩,
       ⟨10, 1, "CS102", "m2", 4, "B", .compulsory, .first_attempt⟩] }

/-- The all-dropped edge case of the specification, §8: a single module
with attempt type `dropped`. -/
def dbAllDropped : DB :=
  { profiles := [],
    grading_criteria := [⟨1, "A", 400⟩],
    semesters := [⟨10, 1, "S1", "2024", true⟩],
    modules := [⟨10, 1, "CS101", "m1", 3, "A", .compulsory, .dropped⟩] }

/-- A base state with one mapped module, used to exercise the
add-one-module equalities. -/
def dbOneModule : DB :=
  { profiles := [],
    grading_criteria := [⟨1, "A", 400⟩],
    semesters := [⟨10, 1, "S1", "2024", true⟩],
    modules := [⟨10, 1, "CS101", "m1", 3, "A", .compulsory, .first_attempt⟩] }

/-- A dropped module with a mapped grade and nonzero credits. -/
def droppedModule : Module :=
  ⟨10, 1, "CS900", "dropped module", 5, "A", .compulsory, .dropped⟩

/-- A module whose grade label "Z" has no entry in user 1's scale. -/
def unmappedModule : Module :=
  ⟨10, 1, "CS901", "unmapped module", 5, "Z", .compulsory, .first_attempt⟩

/-- A grading scale whose only entry carries the negative point value
`-1.00` — nothing in the schema or the setup form forbids it — together
with one 3-credit module graded with it. -/
def dbNegScale : DB :=
  { profiles := [],
    grading_criteria := [⟨1, "F", -100⟩],
    semesters := [⟨10, 1, "S1", "2024", false⟩],
    modules := [⟨10, 1, "CS101", "m1", 3, "F", .compulsory, .first_attempt⟩] }

/-- The weighted-average state of `dbWeighted` with, in addition, a
NEGATIVE grading-scale entry owned by a different user (user 2): user
1's own scale is entirely nonnegative. -/
def dbMixedScales : DB :=
  { profiles := [],
    grading_criteria := [⟨1, "A", 400⟩, ⟨1, "B", 300⟩, ⟨2, "F", -100⟩],
    semesters := [⟨10, 1, "S1", "2024", true⟩],
    modules :=
      [⟨10, 1, "CS101", "m1", 3, "A", .compulsory, .first_attempt⟩,
       ⟨10, 1, "CS102", "m2", 4, "B", .compulsory, .first_attempt⟩] }

/-- A state in which user 1 already has one semester flagged current. -/
def dbCurrentS1 : DB :=
  { profiles := [],
    grading_criteria := [],
    semesters := [⟨1, 1, "S1", "2023-2024", true⟩],
    modules := [] }

/-- The add-semester form filled in with "is current" switched on. -/
def formS2 : SemesterForm :=
  ⟨"S2", "2024-2025", true⟩

/-- The empty database. -/
def dbEmpty : DB :=
  { profiles := [], grading_criteria := [], semesters := [], modules := [] }

/-- A setup form with two valid rows carrying the same grade label. -/
def duplicateLabelRows : List CriteriaFormRow :=
  [⟨"A", some 400⟩, ⟨"A", some 300⟩]

/-- The state produced by saving `duplicateLabelRows` for user 1. -/
def dbDupLabels : DB :=
  { profiles := [],
    grading_criteria := [⟨1, "A", 400⟩, ⟨1, "A", 300⟩],
    semesters := [],
    modules := [] }

/-- Eleven profiles in the same university and course; user `i + 1` has
one 1-credit module whose grade is worth `i + 1` hundredths, so the
cumulative GPAs in profile order are `1, 2, ..., 11` and the best GPA
belongs to the profile beyond the first page window of ten. -/
def dbLeaderboard : DB :=
  { profiles := (List.range 11).map (fun i =>
      ⟨i + 1, i + 1, "student", "U", "C", "r"⟩),
    grading_criteria := (List.range 11).map (fun i =>
      ⟨i + 1, "A", (i : Int) + 1⟩),
    semesters := (List.range 11).map (fun i =>
      ⟨i + 1, i + 1, "S1", "2024", false⟩),
    modules := (List.range 11).map (fun i =>
      ⟨i + 1, i + 1, "CS101", "m", 1, "A", .compulsory, .first_attempt⟩) }

/-- The viewing user of `dbLeaderboard`. -/
def lbViewer : Profile :=
  ⟨1, 1, "student", "U", "C", "r"⟩

/-- Three same-university, same-course profiles whose cumulative GPAs
are `3.80`, `2.10` and `3.95` — the ranking example of the
specification, §8. -/
def dbLB3 : DB :=
  { profiles :=
      [⟨1, 1, "s1", "U", "C", "r1"⟩,
       ⟨2, 2, "s2", "U", "C", "r2"⟩,
       ⟨3, 3, "s3", "U", "C", "r3"⟩],
    grading_criteria := [⟨1, "A", 380⟩, ⟨2, "A", 210⟩, ⟨3, "A", 395⟩],
    semesters :=
      [⟨1, 1, "S", "2024", false⟩,
       ⟨2, 2, "S", "2024", false⟩,
       ⟨3, 3, "S", "2024", false⟩],
    modules :=
      [⟨1, 1, "M", "m", 1, "A", .compulsory, .first_attempt⟩,
       ⟨2, 2, "M", "m", 1, "A", .compulsory, .first_attempt⟩,
       ⟨3, 3, "M", "m", 1, "A", .compulsory, .first_attempt⟩] }

/-- The viewing user of `dbLB3`. -/
def lbViewer3 : Profile :=
  ⟨1, 1, "s1", "U", "C", "r1"⟩

/-- The second profile of `dbLB3`. -/
def lbProfile2 : Profile :=
  ⟨2, 2, "s2", "U", "C", "r2"⟩

/-- No `calculate_gpa` RPC call fails. -/
def noRpcFailure : UserId → Bool :=
  fun _ => false

/-- Exactly the RPC call for user 2 fails (returns a null result). -/
def rpcFailUser2 : UserId → Bool :=
  fun u => u == 2

/-- Users 1 and 2 at different universities and courses: user 2 owns one
grading-scale entry and one mapped 3-credit module. -/
def dbNonPeerA : DB :=
  { profiles :=
      [⟨1, 1, "alice", "X", "CS", "r1"⟩,
       ⟨2, 2, "bob", "Y", "EE", "r2"⟩],
    grading_criteria := [⟨2, "A", 400⟩],
    semesters := [⟨20, 2, "S", "2024", false⟩],
    modules := [⟨20, 2, "M", "m", 3, "A", .compulsory, .first_attempt⟩] }

/-- State `dbNonPeerA` with only user 2's module row changed (grade "B",
unmapped): rows of user 1 and all profile rows are identical. -/
def dbNonPeerB : DB :=
  { dbNonPeerA with
    modules := [⟨20, 2, "M", "m", 3, "B", .compulsory, .first_attempt⟩] }

/-- User 2's profile in `dbNonPeerA` and `dbNonPeerB`. -/
def bobProfile : Profile :=
  ⟨2, 2, "bob", "Y", "EE", "r2"⟩

end GPATracker

namespace GPATracker

/-! ### Supporting lemmas -/

theorem gpaStep_of_none {gcs : List GradingCriterion} {u : UserId}
    {m : Module} (acc : Int × Nat)
    (h : lookupGpaValue gcs u m.grade = none) :
    gpaStep gcs u acc m = acc := by
  simp [gpaStep, h]

theorem gpaLoop_shift (gcs : List GradingCriterion) (u : UserId)
    (ms : List Module) (a : Int) (b : Nat) :
    ms.foldl (gpaStep gcs u) (a, b) =
      (a + (gpaLoop gcs u ms).1, b + (gpaLoop gcs u ms).2) := by
  induction ms generalizing a b with
  | nil => simp [gpaLoop]
  | cons m ms ih =>
    simp only [gpaLoop, List.foldl_cons] at ih ⊢
    cases hlk : lookupGpaValue gcs u m.grade with
    | none =>
      rw [gpaStep_of_none _ hlk, gpaStep_of_none _ hlk, ih]
    | some v =>
      simp only [gpaStep, hlk]
      rw [ih, ih (0 + v * (m.credit_hours : Int)) (0 + m.credit_hours)]
      rw [Prod.ext_iff]
      refine ⟨?_, ?_⟩ <;> simp <;> ring

theorem gpaLoop_eq_sums (gcs : List GradingCriterion) (u : UserId)
    (ms : List Module) :
    gpaLoop gcs u ms =
      (((gpaContributions gcs u ms).map Prod.fst).sum,
       ((gpaContributions gcs u ms).map Prod.snd).sum) := by
  induction ms with
  | nil => simp [gpaLoop, gpaContributions]
  | cons m ms ih =>
    cases hlk : lookupGpaValue gcs u m.grade with
    | none =>
      have hcons : gpaContributions gcs u (m :: ms) =
          gpaContributions gcs u ms := by
        simp [gpaContributions, List.filterMap_cons, hlk]
      rw [hcons]
      simp only [gpaLoop, List.foldl_cons]
      rw [gpaStep_of_none _ hlk]
      exact ih
    | some v =>
      have hcons : gpaContributions gcs u (m :: ms) =
          (v * (m.credit_hours : Int), m.credit_hours) ::
            gpaContributions gcs u ms := by
        simp [gpaContributions, List.filterMap_cons, hlk]
      rw [hcons]
      simp only [gpaLoop, List.foldl_cons, gpaStep, hlk]
      rw [gpaLoop_shift]
      rw [ih, Prod.ext_iff]
      refine ⟨?_, ?_⟩
      · simp [List.sum_cons]
      · simp [List.sum_cons]

theorem foldl_max_init_le (l : List Int) (a : Int) : a ≤ l.foldl max a := by
  induction l generalizing a with
  | nil => exact le_refl a
  | cons x l ih =>
    exact le_trans (le_max_left a x) (ih (max a x))

theorem mem_le_foldl_max (l : List Int) (a x : Int) (hx : x ∈ l) :
    x ≤ l.foldl max a := by
  induction l generalizing a with
  | nil => cases hx
  | cons y l ih =>
    rcases List.mem_cons.mp hx with h | h
    · subst h
      exact le_trans (le_max_right a x) (foldl_max_init_le l (max a x))
    · exact ih (max a y) h

theorem maxGpaValue_nonneg (gcs : List GradingCriterion) (u : UserId) :
    0 ≤ maxGpaValue gcs u :=
  foldl_max_init_le _ 0

theorem lookupGpaValue_bounds (gcs : List GradingCriterion) (u : UserId)
    (g : String) (v : Int)
    (hpos : ∀ gc ∈ gcs, gc.user_id = u → 0 ≤ gc.gpa_value)
    (h : lookupGpaValue gcs u g = some v) :
    0 ≤ v ∧ v ≤ maxGpaValue gcs u := by
  unfold lookupGpaValue at h
  cases hf : gcs.find? (fun gc => gc.user_id == u && gc.grade_name == g) with
  | none => rw [hf] at h; cases h
  | some gc =>
    rw [hf] at h
    have hv : v = gc.gpa_value := by
      simpa using h.symm
    subst hv
    have hmem : gc ∈ gcs := List.mem_of_find?_eq_some hf
    have hp := List.find?_some hf
    simp only [Bool.and_eq_true, beq_iff_eq] at hp
    refine ⟨hpos gc hmem hp.1, ?_⟩
    have hmem2 : gc.gpa_value ∈
        (gcs.filter (fun gc => gc.user_id == u)).map (fun gc => gc.gpa_value) := by
      refine List.mem_map_of_mem _ ?_
      exact List.mem_filter.mpr ⟨hmem, by simp [hp.1]⟩
    exact mem_le_foldl_max _ 0 _ hmem2

theorem gpaLoop_bounded (gcs : List GradingCriterion) (u : UserId)
    (M : Int)
    (hlk : ∀ g v, lookupGpaValue gcs u g = some v → 0 ≤ v ∧ v ≤ M) :
    ∀ (ms : List Module) (a : Int) (b : Nat), 0 ≤ a → a ≤ M * b →
      0 ≤ (ms.foldl (gpaStep gcs u) (a, b)).1 ∧
      (ms.foldl (gpaStep gcs u) (a, b)).1 ≤
        M * ((ms.foldl (gpaStep gcs u) (a, b)).2 : Int) := by
  intro ms
  induction ms with
  | nil => intro a b h0 hle; exact ⟨h0, hle⟩
  | cons m ms ih =>
    intro a b h0 hle
    simp only [List.foldl_cons]
    cases hl : lookupGpaValue gcs u m.grade with
    | none =>
      rw [gpaStep_of_none _ hl]
      exact ih a b h0 hle
    | some v =>
      obtain ⟨hv0, hvM⟩ := hlk _ _ hl
      simp only [gpaStep, hl]
      apply ih
      · exact add_nonneg h0 (mul_nonneg hv0 (Int.natCast_nonneg _))
      · have h1 : v * (m.credit_hours : Int) ≤ M * (m.credit_hours : Int) :=
          mul_le_mul_of_nonneg_right hvM (Int.natCast_nonneg _)
        calc a + v * (m.credit_hours : Int)
            ≤ M * b + M * (m.credit_hours : Int) := add_le_add hle h1
          _ = M * ((b + m.credit_hours : Nat) : Int) := by push_cast; ring

theorem roundHalfAwayFromZero_bounds (num : Int) (den : Nat) (M : Int)
    (hden : 0 < den) (h0 : 0 ≤ num) (hle : num ≤ M * den) :
    0 ≤ roundHalfAwayFromZero num den ∧ roundHalfAwayFromZero num den ≤ M := by
  have hden' : (0 : Int) < den := by exact_mod_cast hden
  unfold roundHalfAwayFromZero
  rw [if_pos h0]
  constructor
  · exact Int.ediv_nonneg (by linarith) (by linarith)
  · have h2 : 2 * num + den ≤ den + M * (2 * den) := by linarith
    have h3 : (2 * num + den) / (2 * den) ≤ (den + M * (2 * den)) / (2 * den) :=
      Int.ediv_le_ediv (by linarith) h2
    have h4 : ((den : Int) + M * (2 * den)) / (2 * den) =
        (den : Int) / (2 * den) + M :=
      Int.add_mul_ediv_right _ _ (by linarith)
    have h5 : ((den : Int)) / (2 * den) = 0 :=
      Int.ediv_eq_zero_of_lt (by linarith) (by linarith)
    rw [h4, h5] at h3
    simpa using h3

end GPATracker

namespace GPATracker

/-! ### Claim theorems -/

/-- C1.  For every user and optional semester scope, under referential
integrity of modules' semester references (the `JOIN semesters` of the
cursor query), `calculate_gpa` equals the reference definition of the
specification §4.1: sums of `grade_point * credit_hours` and of
`credit_hours` over the non-dropped modules with a resolvable grade,
`0.00` on a zero credit total, and otherwise the quotient rounded
half-away-from-zero to two decimals. -/
theorem c1_calculate_gpa_refines_spec (db : DB) (u : UserId)
    (sem : Option SemesterId)
    (h : ∀ m ∈ db.modules, ∃ s ∈ db.semesters, s.id = m.semester_id) :
    calculate_gpa db u sem = spec_gpa db.grading_criteria db.modules u sem := by
  have hfilter : eligibleModules db u sem = db.modules.filter (fun m =>
      m.user_id == u &&
      (match sem with
       | none => true
       | some sid => m.semester_id == sid) &&
      !(m.attempt_type == AttemptType.dropped)) := by
    unfold eligibleModules
    apply List.filter_congr
    intro m hm
    obtain ⟨s, hs, hid⟩ := h m hm
    have hany : db.semesters.any (fun s => s.id == m.semester_id) = true := by
      rw [List.any_eq_true]
      exact ⟨s, hs, by simp [hid]⟩
    rw [hany, Bool.true_and]
  unfold calculate_gpa spec_gpa
  rw [hfilter, gpaLoop_eq_sums]
  rfl

/-- Witness for C1: at the §8 weighted-average instance the refinement
applies and both sides compute `3.43` (343 hundredths). -/
theorem c1_witness :
    calculate_gpa dbWeighted 1 none =
      spec_gpa dbWeighted.grading_criteria dbWeighted.modules 1 none ∧
    calculate_gpa dbWeighted 1 none = 343 :=
  ⟨c1_calculate_gpa_refines_spec dbWeighted 1 none (by decide), by decide⟩

/-- C2.  Whenever the accumulated credit total over eligible modules is
zero — no modules, all modules dropped, or no resolvable grade —
`calculate_gpa` returns exactly `0.00`; the function is total, so this
is a result, not an error. -/
theorem c2_zero_credits_gives_zero (db : DB) (u : UserId)
    (sem : Option SemesterId)
    (h : (gpaLoop db.grading_criteria u (eligibleModules db u sem)).2 = 0) :
    calculate_gpa db u sem = 0 := by
  unfold calculate_gpa
  simp [h]

/-- Witness for C2: the all-dropped instance of §8 has a zero eligible
credit total and GPA `0.00`. -/
theorem c2_witness : calculate_gpa dbAllDropped 1 none = 0 :=
  c2_zero_credits_gives_zero dbAllDropped 1 none (by decide)

/-- C3.  Inserting a module with attempt type `dropped` anywhere in the
modules table leaves `calculate_gpa` unchanged, whatever its credit
hours and grade: dropped modules are filtered out of both totals. -/
theorem c3_dropped_module_no_effect (db : DB) (u : UserId)
    (sem : Option SemesterId) (l1 l2 : List Module) (d : Module)
    (hd : d.attempt_type = AttemptType.dropped) :
    calculate_gpa { db with modules := l1 ++ d :: l2 } u sem =
      calculate_gpa { db with modules := l1 ++ l2 } u sem := by
  unfold calculate_gpa eligibleModules
  simp [List.filter_append, List.filter_cons, hd]

/-- Witness for C3: adding a 5-credit dropped "A" module to the
one-module state does not change the GPA, which stays `4.00`. -/
theorem c3_witness :
    calculate_gpa
        { dbOneModule with modules := dbOneModule.modules ++ droppedModule :: [] }
        1 none =
      calculate_gpa { dbOneModule with modules := dbOneModule.modules ++ [] } 1 none ∧
    calculate_gpa { dbOneModule with modules := dbOneModule.modules ++ [] } 1 none = 400 :=
  ⟨c3_dropped_module_no_effect dbOneModule 1 none dbOneModule.modules [] droppedModule rfl,
   by decide⟩

/-- C4.  Inserting a module whose grade label resolves to no entry of
the user's grading scale anywhere in the modules table leaves
`calculate_gpa` unchanged: the PL/pgSQL `SELECT INTO` sets `gpa_value`
to NULL when no row matches (no value from an earlier iteration is
reused), so the module contributes to neither total. -/
theorem c4_unmapped_module_no_effect (db : DB) (u : UserId)
    (sem : Option SemesterId) (l1 l2 : List Module) (um : Module)
    (h : lookupGpaValue db.grading_criteria u um.grade = none) :
    calculate_gpa { db with modules := l1 ++ um :: l2 } u sem =
      calculate_gpa { db with modules := l1 ++ l2 } u sem := by
  have key : gpaLoop db.grading_criteria u
      (eligibleModules { db with modules := l1 ++ um :: l2 } u sem) =
      gpaLoop db.grading_criteria u
        (eligibleModules { db with modules := l1 ++ l2 } u sem) := by
    unfold eligibleModules gpaLoop
    simp only [List.filter_append, List.filter_cons]
    by_cases hp : (db.semesters.any (fun s => s.id == um.semester_id) &&
        um.user_id == u &&
        (match sem with
         | none => true
         | some sid => um.semester_id == sid) &&
        !(um.attempt_type == AttemptType.dropped)) = true
    · rw [if_pos hp]
      rw [List.foldl_append, List.foldl_append, List.foldl_cons,
        gpaStep_of_none _ h]
    · rw [if_neg hp]
  unfold calculate_gpa
  rw [key]

/-- Witness for C4: adding a 5-credit module with the unmapped grade "Z"
to the one-module state does not change the GPA, which stays `4.00`. -/
theorem c4_witness :
    calculate_gpa
        { dbOneModule with modules := dbOneModule.modules ++ unmappedModule :: [] }
        1 none =
      calculate_gpa { dbOneModule with modules := dbOneModule.modules ++ [] } 1 none ∧
    calculate_gpa { dbOneModule with modules := dbOneModule.modules ++ [] } 1 none = 400 :=
  ⟨c4_unmapped_module_no_effect dbOneModule 1 none dbOneModule.modules []
      unmappedModule (by decide),
   by decide⟩

/-- C5.  `AddSemesterDialog.handleSubmit` never inspects the result of
the step-(a) clearing update (supabase-js resolves a failed query with
an error value instead of throwing), so when that update fails the
insert of step (b) still proceeds and the user ends with TWO current
semesters; when the update succeeds the invariant holds and exactly one
semester is current. -/
theorem c5_clear_failure_insert_still_proceeds :
    currentSemesterCount
        (addSemesterSubmit dbCurrentS1 1 formS2 2 StoreResult.storeError) 1 = 2 ∧
    currentSemesterCount
        (addSemesterSubmit dbCurrentS1 1 formS2 2 StoreResult.ok) 1 = 1 := by
  decide

/-- Counterexample to C7 as stated: with the (schema-allowed) negative
grading-scale entry `F ↦ -1.00`, `calculate_gpa` returns `-1.00` — a
negative GPA, contradicting "never negative ... including when the scale
contains negative point values". -/
theorem c7_counterexample : calculate_gpa dbNegScale 1 none < 0 := by
  decide

/-- C7 (amended).  When every `gpa_value` in the USER'S grading scale
(the grading-criteria rows with this user's id — other users' entries
are irrelevant, since the lookup reads only this user's rows) is
nonnegative, `calculate_gpa` lies in the range
`[0.00, max gpa_value among the user's entries]`; with a negative entry
in the user's scale the lower bound fails (see the counterexample). -/
theorem c7_gpa_range (db : DB) (u : UserId) (sem : Option SemesterId)
    (hpos : ∀ gc ∈ db.grading_criteria, gc.user_id = u → 0 ≤ gc.gpa_value) :
    0 ≤ calculate_gpa db u sem ∧
    calculate_gpa db u sem ≤ maxGpaValue db.grading_criteria u := by
  unfold calculate_gpa
  by_cases h2 : (gpaLoop db.grading_criteria u (eligibleModules db u sem)).2 = 0
  · simp only [h2, if_pos]
    exact ⟨le_refl 0, by simpa using maxGpaValue_nonneg db.grading_criteria u⟩
  · simp only [h2, if_neg, if_false]
    have hb := gpaLoop_bounded db.grading_criteria u
      (maxGpaValue db.grading_criteria u)
      (fun g v hv => lookupGpaValue_bounds db.grading_criteria u g v hpos hv)
      (eligibleModules db u sem) 0 0 (le_refl 0) (by simp)
    exact roundHalfAwayFromZero_bounds _ _ _
      (Nat.pos_of_ne_zero h2) hb.1 hb.2

/-- Witness for C7 (amended): user 1's own scale is nonnegative even
though user 2 holds a negative entry in the same table, and user 1's
GPA `3.43` indeed lies in `[0, 4.00]`. -/
theorem c7_witness :
    0 ≤ calculate_gpa dbMixedScales 1 none ∧
    calculate_gpa dbMixedScales 1 none ≤
      maxGpaValue dbMixedScales.grading_criteria 1 :=
  c7_gpa_range dbMixedScales 1 none (by decide)

/-- Counterexample to C8 as stated: saving a form with the repeated
label "A" succeeds and leaves user 1 with two grading-scale entries of
the same name — neither the `grading_criteria` table (no uniqueness
constraint on `(user_id, grade_name)`) nor `saveCriteria` (which only
filters blank or non-numeric rows) enforces distinct labels. -/
theorem c8_counterexample :
    saveCriteria dbEmpty 1 duplicateLabelRows = Except.ok dbDupLabels ∧
    ¬ uniqueLabelsPerUser dbDupLabels := by
  constructor
  · rfl
  · intro h
    exact absurd (h 1) (by decide)

/-- C8 (amended).  Grading-scale entries are scoped per user — every row
inserted by `saveCriteria` carries the requesting user's id, and the
insert appends exactly the validated form rows — but grade labels are
NOT unique: duplicates pass validation and are stored (see the
counterexample). -/
theorem c8_save_criteria_scoped (db : DB) (u : UserId)
    (rows : List CriteriaFormRow) (db' : DB)
    (h : saveCriteria db u rows = Except.ok db') :
    db'.grading_criteria = db.grading_criteria ++
      (validCriteria rows).map (fun c =>
        { user_id := u, grade_name := c.1, gpa_value := c.2 }) ∧
    ∀ gc ∈ (validCriteria rows).map (fun c =>
        ({ user_id := u, grade_name := c.1, gpa_value := c.2 } :
          GradingCriterion)), gc.user_id = u := by
  unfold saveCriteria at h
  by_cases he : (validCriteria rows).isEmpty
  · rw [if_pos he] at h
    exact Except.noConfusion h
  · rw [if_neg he] at h
    injection h with h
    constructor
    · rw [← h]
    · intro gc hgc
      obtain ⟨c, _, rfl⟩ := List.mem_map.mp hgc
      rfl

/-- Witness for C8 (amended): saving the duplicate-label form appends
exactly its two rows for user 1. -/
theorem c8_witness :
    dbDupLabels.grading_criteria = dbEmpty.grading_criteria ++
      (validCriteria duplicateLabelRows).map (fun c =>
        { user_id := 1, grade_name := c.1, gpa_value := c.2 }) :=
  (c8_save_criteria_scoped dbEmpty 1 duplicateLabelRows dbDupLabels (by rfl)).1

/-- Counterexample to C6 as stated: with eleven same-university,
same-course profiles, the displayed first page is NOT the first page of
the descending sort of the whole filtered set — `loadLeaderboard`
paginates with `.range(...)` before computing GPAs and sorts only
within the fetched page, so the highest GPA (profile 11) is missing
from page 1. -/
theorem c6_counterexample :
    loadLeaderboard dbLeaderboard lbViewer 1 noRpcFailure ≠
      spec_leaderboardDisplay dbLeaderboard lbViewer 1 noRpcFailure := by
  decide

/-- C6 (amended).  `loadLeaderboard` sorts descending by GPA only within
the fetched page window; whenever the whole filtered profile set fits on
the first page, this coincides with the spec's sort of the whole set, so
the single-page display is the descending-GPA order. -/
theorem c6_single_page_sorted_desc (db : DB) (viewer : Profile)
    (rpcFails : UserId → Bool)
    (h : (db.profiles.filter (fun p =>
        p.university_name == viewer.university_name &&
        p.course_name == viewer.course_name)).length ≤ itemsPerPage) :
    loadLeaderboard db viewer 1 rpcFails =
      spec_leaderboardDisplay db viewer 1 rpcFails := by
  unfold loadLeaderboard spec_leaderboardDisplay leaderboardPageProfiles
  simp only [show (1 - 1) * itemsPerPage = 0 from rfl, List.drop_zero]
  rw [List.take_of_length_le h]
  rw [List.take_of_length_le]
  simp only [sortDescByGpa, List.length_insertionSort, List.length_map]
  exact h

/-- Witness for C6 (amended): the §8 ranking example — three profiles
with cumulative GPAs 3.80, 2.10 and 3.95 fit on one page and are
displayed as `[3.95, 3.80, 2.10]`. -/
theorem c6_witness :
    loadLeaderboard dbLB3 lbViewer3 1 noRpcFailure =
      spec_leaderboardDisplay dbLB3 lbViewer3 1 noRpcFailure ∧
    (loadLeaderboard dbLB3 lbViewer3 1 noRpcFailure).map
      (fun e => e.gpa) = [395, 380, 210] :=
  ⟨c6_single_page_sorted_desc dbLB3 lbViewer3 noRpcFailure (by decide),
   by decide⟩

/-- C10.  A profile of the fetched page whose `calculate_gpa` RPC call
fails (null result) is still displayed: `loadLeaderboard` maps the null
to GPA `0` and the sort is a permutation, so the entry with GPA `0`
appears in the output rather than being omitted or raising an error. -/
theorem c10_null_rpc_displayed_as_zero (db : DB) (viewer : Profile)
    (page : Nat) (rpcFails : UserId → Bool) (p : Profile)
    (hp : p ∈ leaderboardPageProfiles db viewer page)
    (hf : rpcFails p.user_id = true) :
    ({ profile := p, gpa := 0 } : LBEntry) ∈
      loadLeaderboard db viewer page rpcFails := by
  unfold loadLeaderboard
  have hmem : ({ profile := p, gpa := 0 } : LBEntry) ∈
      (leaderboardPageProfiles db viewer page).map (fun p =>
        ({ profile := p,
           gpa := rpcGpaOrZero
             (if rpcFails p.user_id then none
              else some (calculate_gpa db p.user_id none)) } : LBEntry)) := by
    refine List.mem_map.mpr ⟨p, hp, ?_⟩
    simp [hf, rpcGpaOrZero]
  exact ((List.perm_insertionSort gpaDescOrder _).mem_iff).mpr hmem

/-- Witness for C10: on the three-profile instance with the RPC for
user 2 failing, profile 2 is displayed with GPA `0.00`. -/
theorem c10_witness :
    ({ profile := lbProfile2, gpa := 0 } : LBEntry) ∈
      loadLeaderboard dbLB3 lbViewer3 1 rpcFailUser2 :=
  c10_null_rpc_displayed_as_zero dbLB3 lbViewer3 1 rpcFailUser2 lbProfile2
    (by decide) (by decide)

/-- Counterexample to C9 as stated: `calculate_gpa` is `SECURITY
DEFINER` and exposed over RPC with an arbitrary `p_user_id`, so user 1
can observe a value derived from user 2's module rows although the two
users share neither university nor course: two states identical in all
profile rows and in all rows owned by user 1, differing only in user 2's
module, give different results to the same call by user 1 — outside the
peer-profile exception. -/
theorem c9_counterexample :
    rpc_calculate_gpa 1 dbNonPeerA 2 none ≠
      rpc_calculate_gpa 1 dbNonPeerB 2 none ∧
    dbNonPeerA.profiles = dbNonPeerB.profiles ∧
    dbNonPeerA.modules.filter (modulesPolicy 1) =
      dbNonPeerB.modules.filter (modulesPolicy 1) ∧
    dbNonPeerA.grading_criteria = dbNonPeerB.grading_criteria ∧
    ¬ isPeerOf dbNonPeerA 1 bobProfile := by
  refine ⟨by decide, rfl, rfl, rfl, ?_⟩
  intro hpeer
  obtain ⟨p, hp, h1, h2, h3⟩ := hpeer
  simp only [dbNonPeerA, List.mem_cons, List.mem_singleton,
    List.not_mem_nil, or_false] at hp
  rcases hp with rfl | rfl
  · exact absurd h2 (by decide)
  · exact absurd h1 (by decide)

/-- C9 (amended).  Direct table access under the row-level-security
policies is owner-restricted: visible grading-criteria, semester and
module rows belong to the requester; visible profile rows belong to the
requester or satisfy the same-university, same-course peer exception;
and the module rows visible to a requester depend only on the
requester-owned part of the table.  (The `SECURITY DEFINER` RPCs
`calculate_gpa` and `get_leaderboard` bypass this — see the
counterexample.) -/
theorem c9_rls_reads_owner_restricted :
    (∀ (db : DB) (uid : UserId) (gc : GradingCriterion),
        gc ∈ visibleGradingCriteria db uid → gc.user_id = uid) ∧
    (∀ (db : DB) (uid : UserId) (s : Semester),
        s ∈ visibleSemesters db uid → s.user_id = uid) ∧
    (∀ (db : DB) (uid : UserId) (m : Module),
        m ∈ visibleModules db uid → m.user_id = uid) ∧
    (∀ (db : DB) (uid : UserId) (p : Profile),
        p ∈ visibleProfiles db uid → p.user_id = uid ∨ isPeerOf db uid p) ∧
    (∀ (db1 db2 : DB) (uid : UserId),
        db1.modules.filter (modulesPolicy uid) =
          db2.modules.filter (modulesPolicy uid) →
        visibleModules db1 uid = visibleModules db2 uid) := by
  refine ⟨?_, ?_, ?_, ?_, ?_⟩
  · intro db uid gc h
    have hpol := (List.mem_filter.mp h).2
    simpa [gradingCriteriaPolicy] using hpol
  · intro db uid s h
    have hpol := (List.mem_filter.mp h).2
    simpa [semestersPolicy] using hpol
  · intro db uid m h
    have hpol := (List.mem_filter.mp h).2
    simpa [modulesPolicy] using hpol
  · intro db uid p h
    have hpol := (List.mem_filter.mp h).2
    simp only [profilesSelectPolicy, Bool.or_eq_true, Bool.and_eq_true,
      beq_iff_eq, List.any_eq_true] at hpol
    rcases hpol with h1 | ⟨q, hq, hrest⟩
    · exact Or.inl h1
    · exact Or.inr ⟨q, hq, hrest.1.1, hrest.1.2, hrest.2⟩
  · intro db1 db2 uid h
    simpa [visibleModules] using h

/-- Witness for C9 (amended): on the three-profile instance, a visible
grading-criteria row of user 1 is owned by user 1, and a profile row
visible to user 1 is user 1's own or a same-university peer's. -/
theorem c9_witness :
    (⟨1, "A", 380⟩ : GradingCriterion).user_id = 1 ∧
    (lbProfile2.user_id = 1 ∨ isPeerOf dbLB3 1 lbProfile2) :=
  ⟨c9_rls_reads_owner_restricted.1 dbLB3 1 ⟨1, "A", 380⟩ (by decide),
   c9_rls_reads_owner_restricted.2.2.2.1 dbLB3 1 lbProfile2 (by decide)⟩

end GPATracker
